import Mathlib

/-!
Verification of the jihwa image-cycle scripts.

The Python sources are embedded shallowly:
* `start_image_cycle.py` — counter store (`load_counter`, `save_counter`),
  ring allocator (`get_next_counter`), recovery lookup
  (`get_latest_image_path`), the generate/display phases and the `main`
  loop (as an event-trace function with an oracle environment for the
  external processes and the filesystem).
* `src/generate_picture_cycle.py` — its `main`, as `GeneratePicture.main`.

Python's unbounded ints are modelled as `Nat`: the counter is only ever
written from `get_next_counter`, whose values lie in `[1, 50]`, and every
theorem below restricts the cursor range explicitly where it matters.
-/

namespace StartImageCycle

/-- `MAX_IMAGES = 50` (start_image_cycle.py line 13). -/
def MAX_IMAGES : Nat := 50

/-- `IMAGE_DIR = "image_dir"` (line 7). -/
def IMAGE_DIR : String := "image_dir"

/-- `os.path.join(IMAGE_DIR, f"output{i}.png")` — the path of slot `i`
(lines 50, 56, 62, 92). -/
def imagePath (i : Nat) : String := IMAGE_DIR ++ "/output" ++ toString i ++ ".png"

/-- `os.path.join(IMAGE_DIR, "output.png")` — the slot-less default shared
path (lines 47, 67). -/
def defaultImagePath : String := IMAGE_DIR ++ "/output.png"

/-- A Python loop `for i in range(hi, lo, -1): if ex(i): return i`, i.e. the
first `i` with `ex i` scanning `hi, hi-1, ..., lo+1` (lines 55-58 with
`hi = counter-1, lo = 0`; lines 61-64 with `hi = 50, lo = counter`). -/
def scanBetween : Nat → Nat → (Nat → Bool) → Option Nat
  | 0, _, _ => none
  | i + 1, lo, ex =>
    if i + 1 ≤ lo then none
    else if ex (i + 1) then some (i + 1)
    else scanBetween i lo ex

/-- `get_latest_image_path` (lines 42-67), as a pure function of the loaded
counter and an existence predicate over slots (`ex i` stands for
`os.path.exists(os.path.join(IMAGE_DIR, f"output{i}.png"))`). -/
def get_latest_image_path (counter : Nat) (ex : Nat → Bool) : String :=
  if counter = 0 then defaultImagePath
  else if ex counter then imagePath counter
  else
    match scanBetween (counter - 1) 0 ex with
    | some i => imagePath i
    | none =>
      match scanBetween MAX_IMAGES counter ex with
      | some i => imagePath i
      | none => defaultImagePath

/-- The integer-valued states the counter file can be in when
`load_counter` (lines 15-24) reads it — the restriction the scheduler
model quantifies over (the program's own saves only ever write a
non-negative integer; the full state space, including records whose
`counter` key holds a non-integer value, is `CounterRecord` below, with
the complete embedding `load_counter_full`). Each constructor is one code
path:
* `absent` — `os.path.exists(COUNTER_FILE)` is false (line 24),
* `unreadable` — `open`/`json.load` raises, caught by the bare `except`
  (lines 22-23),
* `notDict` — the JSON parses but is not a dict, so `data.get` raises
  `AttributeError`, caught by the bare `except`,
* `missingKey` — a dict without a `counter` key, so `data.get('counter', 0)`
  yields the default `0` (line 21),
* `stored v` — a dict whose `counter` key holds the integer `v`. -/
inductive CounterFileState where
  | absent
  | unreadable
  | notDict
  | missingKey
  | stored (v : Nat)
  deriving DecidableEq

/-- `load_counter` (lines 15-24) restricted to integer-valued records,
as the scheduler model uses it. Total into `Nat`: the bare `except`
returns `0`, so no exception reaches the caller. The complete embedding
over all records — including dicts whose `counter` key holds a
non-integer, which `data.get('counter', 0)` returns verbatim — is
`load_counter_full` below; the two agree on the states modelled here
(lemma `load_counter_full_toRecord`). -/
def load_counter : CounterFileState → Nat
  | .absent => 0
  | .unreadable => 0
  | .notDict => 0
  | .missingKey => 0
  | .stored v => v

/-- A JSON value found under the `counter` key of a parsed record. Only
`int v` is a well-formed cursor; `data.get('counter', 0)` hands any of
these back verbatim — its default `0` applies only when the key is
absent. -/
inductive CounterValue where
  | int (v : Int)
  | null
  | str (s : String)
  deriving DecidableEq

/-- The full state space of the counter record as `load_counter`
(lines 15-24) can encounter it: the four degraded states of
`CounterFileState` plus `stored v` for an arbitrary JSON value `v` under
the `counter` key — including non-integers, which the program never
writes itself but a corrupted or hand-edited file can contain. -/
inductive CounterRecord where
  | absent
  | unreadable
  | notDict
  | missingKey
  | stored (v : CounterValue)
  deriving DecidableEq

/-- `load_counter` (lines 15-24) over the full record space. The bare
`except` absorbs every exception, so the function is total and nothing
raises to the caller; the absent, unreadable, non-dict and missing-key
paths all yield `0`; but for a dict that does have a `counter` key,
`data.get('counter', 0)` returns the stored value verbatim, whatever its
type. -/
def load_counter_full : CounterRecord → CounterValue
  | .absent => .int 0
  | .unreadable => .int 0
  | .notDict => .int 0
  | .missingKey => .int 0
  | .stored v => v

/-- The record corresponding to an integer-valued `CounterFileState`. -/
def CounterFileState.toRecord : CounterFileState → CounterRecord
  | .absent => .absent
  | .unreadable => .unreadable
  | .notDict => .notDict
  | .missingKey => .missingKey
  | .stored v => .stored (.int (v : Int))

/-- Outcome of the filesystem writes attempted by `save_counter`
(lines 26-33): `ok` — both `os.makedirs` and the write succeed;
`failMkdir` / `failWrite` — the respective call raises. -/
inductive WriteOutcome where
  | ok
  | failMkdir
  | failWrite
  deriving DecidableEq

/-- What `save_counter` does, as observed by its caller and by stderr:
`raised` — an exception propagates out of `save_counter`;
`loggedError` — the `"[ERROR] Failed to save counter"` line is printed
(line 33). -/
structure SaveResult where
  raised : Bool
  loggedError : Bool
  deriving DecidableEq

/-- `save_counter` (lines 26-33): the whole body is wrapped in
`try/except Exception`, which prints to stderr and falls through, so no
exception ever propagates to the caller. -/
def save_counter : WriteOutcome → SaveResult
  | .ok => ⟨false, false⟩
  | .failMkdir => ⟨false, true⟩
  | .failWrite => ⟨false, true⟩

/-- The pure next-slot computation of `get_next_counter`, line 38:
`(counter % MAX_IMAGES) + 1`. -/
def get_next_counter (counter : Nat) : Nat := counter % MAX_IMAGES + 1

/-- `get_next_counter` (lines 35-40) with the store passed explicitly:
given the loaded counter `c` and the outcome `w` of the save, returns
(value returned to the caller, counter persisted on disk afterwards).
When the save fails the old on-disk value survives in this model. -/
def get_next_counter_run (c : Nat) (w : WriteOutcome) : Nat × Nat :=
  (get_next_counter c, if w = WriteOutcome.ok then get_next_counter c else c)

/-- `k` successive calls of `get_next_counter` starting from loaded counter
`c`, with `w i` the outcome of the `i`-th save; returns the list of values
handed to the caller (the allocated slots). -/
def advanceSeq : Nat → Nat → (Nat → WriteOutcome) → List Nat
  | 0, _, _ => []
  | k + 1, c, w =>
    (get_next_counter_run c (w 0)).1 ::
      advanceSeq k (get_next_counter_run c (w 0)).2 (fun i => w (i + 1))

/-- The externally visible steps `generate_image` takes, in order:
`saveCounter n` — `get_next_counter` persisted the new counter `n`
(via `save_counter`, line 39); `invokeRenderer n` — `subprocess.run` of
the generator command with `--output-number n` (lines 93-95). -/
inductive GEvent where
  | saveCounter (n : Nat)
  | invokeRenderer (n : Nat)
  deriving DecidableEq

/-- Result of one `generate_image` call (lines 85-107). -/
structure GenOutcome where
  events : List GEvent
  success : Bool
  persisted : Nat
  deriving DecidableEq

/-- `generate_image` (lines 85-107) over the loaded counter `c`, the save
outcome `w`, whether `subprocess.run(cmd, check=True)` raises
(`rendererRaises`), and whether the slot file exists afterwards
(`artifactExists`). The function returns `False` when the subprocess
raises or the file is absent; otherwise `returncode == 0` holds (because
`check=True` already raised on a non-zero code), so it returns `True`. -/
def generate_image (c : Nat) (w : WriteOutcome)
    (rendererRaises artifactExists : Bool) : GenOutcome :=
  { events := [GEvent.saveCounter (get_next_counter c),
               GEvent.invokeRenderer (get_next_counter c)]
    success := !rendererRaises && artifactExists
    persisted := (get_next_counter_run c w).2 }

/-- Result of one `display_image` call (lines 69-83): which path (if any)
the viewer subprocess was invoked on, and the returned boolean. -/
structure DispOutcome where
  viewerInvokedOn : Option String
  success : Bool
  deriving DecidableEq

/-- `display_image` (lines 69-83) over the loaded counter, a path-existence
predicate `exP` (for `os.path.exists`), and whether the viewer subprocess
raises `CalledProcessError` (`viewerRaises`). If the resolved path does
not exist it returns `False` without running the viewer; otherwise the
viewer runs on that path and the result is `returncode == 0`, i.e. true
exactly when no exception was raised (`check=True`). -/
def display_image (counter : Nat) (exP : String → Bool)
    (viewerRaises : Bool) : DispOutcome :=
  let p := get_latest_image_path counter (fun i => exP (imagePath i))
  if exP p then ⟨some p, !viewerRaises⟩
  else ⟨none, false⟩

/-- Oracle for everything outside the scheduler, indexed by the cycle
number: outcomes of the counter saves, of the renderer and viewer
subprocesses, and the filesystem contents seen at each phase. -/
structure CycleEnv where
  write : Nat → WriteOutcome
  rendRaises : Nat → Bool
  artifact : Nat → Bool
  fsPath : Nat → String → Bool
  viewRaises : Nat → Bool

/-- The phases `main` executes, with their boolean outcome:
`gen b` — one `generate_image` call returned `b`;
`disp b` — one `display_image` call returned `b`. -/
inductive Ev where
  | gen (ok : Bool)
  | disp (ok : Bool)
  deriving DecidableEq

/-- The `while True` loop of `main` (lines 130-143): generate, stop on
failure, display, stop on failure, repeat. `c` is the counter persisted on
disk when the iteration starts, `k` the cycle index into the environment,
`fuel` bounds the number of iterations modelled (the real loop runs until
a failure or process termination). -/
def loopRun : Nat → Nat → CycleEnv → Nat → List Ev
  | 0, _, _, _ => []
  | fuel + 1, c, e, k =>
    if (generate_image c (e.write k) (e.rendRaises k) (e.artifact k)).success then
      if (display_image (generate_image c (e.write k) (e.rendRaises k) (e.artifact k)).persisted
            (e.fsPath k) (e.viewRaises k)).success then
        Ev.gen true :: Ev.disp true ::
          loopRun fuel (generate_image c (e.write k) (e.rendRaises k) (e.artifact k)).persisted
            e (k + 1)
      else [Ev.gen true, Ev.disp false]
    else [Ev.gen false]

/-- `main` (lines 109-143) as the trace of phases it executes: if the
loaded counter is `0` a Generate phase is forced first (lines 117-121), a
failed bootstrap generation returns at once; then the initial Display
(lines 124-126), then the loop. -/
def mainRun (fuel : Nat) (s : CounterFileState) (e : CycleEnv) : List Ev :=
  if load_counter s = 0 then
    if (generate_image (load_counter s) (e.write 0) (e.rendRaises 0) (e.artifact 0)).success then
      if (display_image (generate_image (load_counter s) (e.write 0) (e.rendRaises 0)
              (e.artifact 0)).persisted (e.fsPath 0) (e.viewRaises 0)).success then
        Ev.gen true :: Ev.disp true ::
          loopRun fuel (generate_image (load_counter s) (e.write 0) (e.rendRaises 0)
            (e.artifact 0)).persisted e 1
      else [Ev.gen true, Ev.disp false]
    else [Ev.gen false]
  else
    if (display_image (load_counter s) (e.fsPath 0) (e.viewRaises 0)).success then
      Ev.disp true :: loopRun fuel (load_counter s) e 1
    else [Ev.disp false]

/-- Every event of the trace except possibly the final one is a successful
phase: the scheduler stops at the first failure. -/
def SafeExceptLast (l : List Ev) : Prop :=
  ∀ l₁ x l₂, l = l₁ ++ x :: l₂ → l₂ ≠ [] → x = Ev.gen true ∨ x = Ev.disp true

end StartImageCycle

namespace GeneratePicture

/-- What one run of `generate_picture_cycle.py`'s `main` (lines 172-245)
produces: the exit code, the `shutil.copyfile` performed (source artifact,
shared destination) when it succeeded, and whether the
`"Failed to copy to output.png"` warning was logged. -/
structure MainResult where
  exitCode : Nat
  copied : Option (String × String)
  warnLogged : Bool
  deriving DecidableEq

/-- `main` of generate_picture_cycle.py (lines 172-245). Arguments model
the run's environment: `output_dir` and `output_number` are the CLI
arguments (`if args["output_number"]:` is falsy both for `None` and for
`0`, line 198); `manualName` stands for the prompt/seed/steps-derived
filename of manual mode (line 204-205, `.png` included); `promptsOk` —
prompt loading (lines 190-195) succeeded; `rendererRaises` —
`generate_image` raised (lines 212-225); `outputExists` — the artifact
file exists afterwards (lines 228-230); `copyFails` — `shutil.copyfile`
raised (lines 235-239). -/
def main (output_dir : String) (output_number : Option Nat) (manualName : String)
    (promptsOk rendererRaises outputExists copyFails : Bool) : MainResult :=
  if !promptsOk then ⟨1, none, false⟩
  else
    let output_filename :=
      match output_number with
      | some n => if n = 0 then manualName else "output" ++ toString n ++ ".png"
      | none => manualName
    let output_path := output_dir ++ "/" ++ output_filename
    if rendererRaises then ⟨1, none, false⟩
    else if !outputExists then ⟨1, none, false⟩
    else if copyFails then ⟨0, none, true⟩
    else ⟨0, some (output_path, output_dir ++ "/" ++ "output.png"), false⟩

end GeneratePicture

namespace StartImageCycle

/-- A concrete environment for evaluating the scheduler: every save
succeeds, neither subprocess ever raises, and no file ever exists. -/
def emptyDiskEnv : CycleEnv :=
  { write := fun _ => WriteOutcome.ok
    rendRaises := fun _ => false
    artifact := fun _ => false
    fsPath := fun _ _ => false
    viewRaises := fun _ => false }

/-- A concrete environment where generation succeeds (the artifact file
appears) but the path resolved at display time never exists. -/
def noDisplayEnv : CycleEnv :=
  { write := fun _ => WriteOutcome.ok
    rendRaises := fun _ => false
    artifact := fun _ => true
    fsPath := fun _ _ => false
    viewRaises := fun _ => false }

end StartImageCycle

namespace StartImageCycle

lemma scanBetween_eq_none : ∀ (hi lo : Nat) (ex : Nat → Bool),
    scanBetween hi lo ex = none ↔ ∀ i, lo < i → i ≤ hi → ex i = false := by
  intro hi
  induction hi with
  | zero =>
    intro lo ex
    constructor
    · intro _ i h1 h2
      omega
    · intro _
      rfl
  | succ i ih =>
    intro lo ex
    simp only [scanBetween]
    by_cases h1 : i + 1 ≤ lo
    · rw [if_pos h1]
      constructor
      · intro _ j hj1 hj2
        omega
      · intro _
        rfl
    · rw [if_neg h1]
      by_cases h2 : ex (i + 1) = true
      · simp only [h2, if_true]
        constructor
        · intro h
          cases h
        · intro hall
          have := hall (i + 1) (by omega) (Nat.le_refl _)
          rw [h2] at this
          cases this
      · have h2' : ex (i + 1) = false := by
          revert h2
          cases ex (i + 1) <;> simp
        simp only [h2', Bool.false_eq_true, if_false]
        rw [ih lo ex]
        constructor
        · intro hall j hj1 hj2
          rcases Nat.lt_or_ge j (i + 1) with hj | hj
          · exact hall j hj1 (by omega)
          · have : j = i + 1 := by omega
            rw [this]
            exact h2'
        · intro hall j hj1 hj2
          exact hall j hj1 (by omega)

lemma scanBetween_eq_some : ∀ (hi lo m : Nat) (ex : Nat → Bool),
    lo < m → m ≤ hi → ex m = true → (∀ j, m < j → j ≤ hi → ex j = false) →
    scanBetween hi lo ex = some m := by
  intro hi
  induction hi with
  | zero =>
    intro lo m ex h1 h2 h3 h4
    omega
  | succ i ih =>
    intro lo m ex h1 h2 h3 h4
    simp only [scanBetween]
    rw [if_neg (by omega)]
    by_cases hcase : m = i + 1
    · subst hcase
      simp only [h3, if_true]
    · have hxi : ex (i + 1) = false := h4 (i + 1) (by omega) (Nat.le_refl _)
      simp only [hxi, Bool.false_eq_true, if_false]
      exact ih lo m ex h1 (by omega) h3 (fun j hj1 hj2 => h4 j hj1 (by omega))

lemma scanBetween_some_inv : ∀ (hi lo : Nat) (ex : Nat → Bool) (m : Nat),
    scanBetween hi lo ex = some m → lo < m ∧ m ≤ hi ∧ ex m = true := by
  intro hi
  induction hi with
  | zero =>
    intro lo ex m h
    cases h
  | succ i ih =>
    intro lo ex m h
    simp only [scanBetween] at h
    by_cases h1 : i + 1 ≤ lo
    · rw [if_pos h1] at h
      cases h
    · rw [if_neg h1] at h
      by_cases h2 : ex (i + 1) = true
      · simp only [h2, if_true, Option.some.injEq] at h
        exact ⟨by omega, by omega, by rw [← h]; exact h2⟩
      · have h2' : ex (i + 1) = false := by
          revert h2
          cases ex (i + 1) <;> simp
        simp only [h2', Bool.false_eq_true, if_false] at h
        obtain ⟨a, b, c⟩ := ih lo ex m h
        exact ⟨a, by omega, c⟩

end StartImageCycle

namespace StartImageCycle

lemma safeExceptLast_nil : SafeExceptLast [] := by
  intro l₁ x l₂ h _
  exact absurd h (by simp)

lemma safeExceptLast_singleton (a : Ev) : SafeExceptLast [a] := by
  intro l₁ x l₂ h hne
  cases l₁ with
  | nil =>
    injection h with h1 h2
    subst h2
    exact absurd rfl hne
  | cons b l₁ =>
    injection h with h1 h2
    exact absurd h2 (by simp)

lemma safeExceptLast_cons (a : Ev) (ha : a = Ev.gen true ∨ a = Ev.disp true)
    (l : List Ev) (hl : SafeExceptLast l) : SafeExceptLast (a :: l) := by
  intro l₁ x l₂ h hne
  cases l₁ with
  | nil =>
    injection h with h1 h2
    rw [← h1]
    exact ha
  | cons b l₁ =>
    injection h with h1 h2
    exact hl l₁ x l₂ h2 hne

lemma loopRun_safe (e : CycleEnv) :
    ∀ fuel c k, SafeExceptLast (loopRun fuel c e k) := by
  intro fuel
  induction fuel with
  | zero =>
    intro c k
    exact safeExceptLast_nil
  | succ n ih =>
    intro c k
    simp only [loopRun]
    by_cases hg : (generate_image c (e.write k) (e.rendRaises k) (e.artifact k)).success = true
    · rw [if_pos hg]
      by_cases hd : (display_image (generate_image c (e.write k) (e.rendRaises k)
          (e.artifact k)).persisted (e.fsPath k) (e.viewRaises k)).success = true
      · rw [if_pos hd]
        exact safeExceptLast_cons _ (Or.inl rfl) _
          (safeExceptLast_cons _ (Or.inr rfl) _ (ih _ _))
      · rw [if_neg hd]
        exact safeExceptLast_cons _ (Or.inl rfl) _ (safeExceptLast_singleton _)
    · rw [if_neg hg]
      exact safeExceptLast_singleton _

lemma mainRun_safe (fuel : Nat) (s : CounterFileState) (e : CycleEnv) :
    SafeExceptLast (mainRun fuel s e) := by
  simp only [mainRun]
  by_cases h0 : load_counter s = 0
  · rw [if_pos h0]
    by_cases hg : (generate_image (load_counter s) (e.write 0) (e.rendRaises 0)
        (e.artifact 0)).success = true
    · rw [if_pos hg]
      by_cases hd : (display_image (generate_image (load_counter s) (e.write 0) (e.rendRaises 0)
          (e.artifact 0)).persisted (e.fsPath 0) (e.viewRaises 0)).success = true
      · rw [if_pos hd]
        exact safeExceptLast_cons _ (Or.inl rfl) _
          (safeExceptLast_cons _ (Or.inr rfl) _ (loopRun_safe e fuel _ 1))
      · rw [if_neg hd]
        exact safeExceptLast_cons _ (Or.inl rfl) _ (safeExceptLast_singleton _)
    · rw [if_neg hg]
      exact safeExceptLast_singleton _
  · rw [if_neg h0]
    by_cases hd : (display_image (load_counter s) (e.fsPath 0) (e.viewRaises 0)).success = true
    · rw [if_pos hd]
      exact safeExceptLast_cons _ (Or.inr rfl) _ (loopRun_safe e fuel _ 1)
    · rw [if_neg hd]
      exact safeExceptLast_singleton _

lemma mainRun_gen_false_terminal (fuel : Nat) (s : CounterFileState) (e : CycleEnv)
    (l₁ l₂ : List Ev) (h : mainRun fuel s e = l₁ ++ Ev.gen false :: l₂) : l₂ = [] := by
  by_contra hne
  rcases mainRun_safe fuel s e l₁ (Ev.gen false) l₂ h hne with h' | h' <;>
    exact absurd h' (by decide)

lemma mainRun_disp_false_terminal (fuel : Nat) (s : CounterFileState) (e : CycleEnv)
    (l₁ l₂ : List Ev) (h : mainRun fuel s e = l₁ ++ Ev.disp false :: l₂) : l₂ = [] := by
  by_contra hne
  rcases mainRun_safe fuel s e l₁ (Ev.disp false) l₂ h hne with h' | h' <;>
    exact absurd h' (by decide)

lemma advanceSeq_congr_ok : ∀ (n c : Nat) (w : Nat → WriteOutcome),
    (∀ k, w k = WriteOutcome.ok) →
    advanceSeq n c w = advanceSeq n c (fun _ => WriteOutcome.ok) := by
  intro n
  induction n with
  | zero =>
    intro c w _
    rfl
  | succ m ih =>
    intro c w hw
    simp only [advanceSeq]
    rw [hw 0]
    rw [ih _ (fun i => w (i + 1)) (fun i => hw (i + 1))]

lemma imagePath_ne_default : ∀ i, i < MAX_IMAGES + 1 → imagePath i ≠ defaultImagePath := by
  decide

lemma load_counter_full_toRecord (s : CounterFileState) :
    load_counter_full s.toRecord = CounterValue.int (load_counter s : Int) := by
  cases s <;> rfl

end StartImageCycle

namespace StartImageCycle

/-- C2: for every prior cursor `c` in `[0, N]` (N = 50), the next-slot
computation of `get_next_counter` returns exactly `(c mod N) + 1`, always
in `[1, N]`; in particular `next 0 = 1` with no special case for `c = 0`,
and `next N = 1` (the ring wraps `N` to `1` with no gap). -/
theorem get_next_counter_spec (c : Nat) (hc : c ≤ MAX_IMAGES) :
    get_next_counter c = c % MAX_IMAGES + 1 ∧
    1 ≤ get_next_counter c ∧ get_next_counter c ≤ MAX_IMAGES ∧
    get_next_counter 0 = 1 ∧ get_next_counter MAX_IMAGES = 1 := by
  refine ⟨rfl, ?_, ?_, rfl, rfl⟩
  · simp only [get_next_counter]
    omega
  · simp only [get_next_counter, MAX_IMAGES]
    omega

/-- C2 witness: the theorem instantiated at the wrap point `c = 50`. -/
theorem get_next_counter_spec_witness :
    get_next_counter 50 = 50 % MAX_IMAGES + 1 ∧
    1 ≤ get_next_counter 50 ∧ get_next_counter 50 ≤ MAX_IMAGES ∧
    get_next_counter 0 = 1 ∧ get_next_counter MAX_IMAGES = 1 :=
  get_next_counter_spec 50 (by decide)

/-- C3: starting from a fresh store (loaded cursor `0`), 51 consecutive
`get_next_counter` calls whose saves all succeed return the slot sequence
`1, 2, ..., 50, 1`; every slot in `[1, 50]` appears exactly once among the
first 50 values and the 51st value is `1` again. -/
theorem advance_full_cycle (w : Nat → WriteOutcome) (hw : ∀ k, w k = WriteOutcome.ok) :
    advanceSeq 51 0 w = ((List.range MAX_IMAGES).map fun i => i + 1) ++ [1] ∧
    (∀ s, s < MAX_IMAGES + 1 → 1 ≤ s → ((advanceSeq 51 0 w).take MAX_IMAGES).count s = 1) ∧
    (advanceSeq 51 0 w).getLast? = some 1 := by
  rw [advanceSeq_congr_ok 51 0 w hw]
  refine ⟨by decide, by decide, by decide⟩

/-- C3 witness: the theorem at the all-saves-succeed environment. -/
theorem advance_full_cycle_witness :
    advanceSeq 51 0 (fun _ => WriteOutcome.ok) =
      ((List.range MAX_IMAGES).map fun i => i + 1) ++ [1] :=
  (advance_full_cycle (fun _ => WriteOutcome.ok) (fun _ => rfl)).1

/-- C5 counterexample: a malformed record that parses to a dict whose
`counter` key holds the non-integer `null` makes `load_counter` return
that value verbatim — `data.get('counter', 0)` only defaults when the key
is absent — and not the logical cursor `0`, refuting the claim's
universal "returns 0 for every malformed record". -/
theorem load_counter_malformed_not_zero :
    load_counter_full (CounterRecord.stored CounterValue.null) ≠ CounterValue.int 0 := by
  decide

/-- C5 amended: `load_counter` never raises to its caller (it is total:
the bare `except` absorbs every exception), and returns the logical
cursor `0` whenever the record is absent, unreadable, unparseable as a
dict, or lacks a `counter` key; but when the record is a dict whose
`counter` key holds a value — integer or not — that stored value is
returned verbatim rather than `0`. -/
theorem load_counter_fails_soft (r : CounterRecord)
    (h : ∀ v, r ≠ CounterRecord.stored v) :
    load_counter_full r = CounterValue.int 0 ∧
    (∀ v, load_counter_full (CounterRecord.stored v) = v) := by
  refine ⟨?_, fun v => rfl⟩
  cases r with
  | stored v => exact absurd rfl (h v)
  | absent => rfl
  | unreadable => rfl
  | notDict => rfl
  | missingKey => rfl

/-- C5 witness: the amended theorem at the unreadable-record state. -/
theorem load_counter_fails_soft_witness :
    load_counter_full CounterRecord.unreadable = CounterValue.int 0 :=
  (load_counter_fails_soft CounterRecord.unreadable (fun v h => nomatch h)).1

/-- C6 counterexample: on a write failure `save_counter` does not signal
any error to its caller — the exception is caught inside `save_counter`
(only the stderr log records it), so the claim that a `PersistenceError`
is signalled to the caller is false at the concrete input `failWrite`. -/
theorem save_counter_no_signal_to_caller :
    ¬ (save_counter WriteOutcome.failWrite).raised = true := by
  decide

/-- C6 amended: when `save_counter` hits a write failure it absorbs the
error itself — nothing is raised to the caller, the failure is logged to
stderr — and `get_next_counter` still returns the newly allocated slot
`(c mod 50) + 1` to the scheduler even though the save of that value
failed. -/
theorem save_failure_absorbed (w : WriteOutcome) (c : Nat) (hw : w ≠ WriteOutcome.ok) :
    (save_counter w).raised = false ∧ (save_counter w).loggedError = true ∧
    (get_next_counter_run c w).1 = c % MAX_IMAGES + 1 := by
  cases w with
  | ok => exact absurd rfl hw
  | failMkdir => exact ⟨rfl, rfl, rfl⟩
  | failWrite => exact ⟨rfl, rfl, rfl⟩

/-- C6 witness: the amended theorem at a failing mkdir with cursor 7. -/
theorem save_failure_absorbed_witness :
    (save_counter WriteOutcome.failMkdir).raised = false ∧
    (save_counter WriteOutcome.failMkdir).loggedError = true ∧
    (get_next_counter_run 7 WriteOutcome.failMkdir).1 = 7 % MAX_IMAGES + 1 :=
  save_failure_absorbed WriteOutcome.failMkdir 7 (by decide)

end StartImageCycle

namespace StartImageCycle

/-- C1: for every cursor `c` in `[1, 50]` and every existence predicate
`ex` over slots, `get_latest_image_path` returns the path of the existing
slot that is closest-preceding `c` in allocation order — the slot `m`
minimising the backward ring distance `(c + 50 - m) mod 50` among all
existing slots (distance 0 is the direct hit at `c`, distances
`1, ..., c-1` the backward scan to 1, distances `c, ..., 49` the backward
scan from 50 down to `c+1`; so with `c = 1` and only slot 50 existing,
slot 50's path is returned). -/
theorem get_latest_closest_preceding (c m : Nat) (ex : Nat → Bool)
    (hc1 : 1 ≤ c) (hc2 : c ≤ MAX_IMAGES) (hm1 : 1 ≤ m) (hm2 : m ≤ MAX_IMAGES)
    (hex : ex m = true)
    (hmin : ∀ j, j < MAX_IMAGES + 1 → 1 ≤ j → ex j = true →
      (c + MAX_IMAGES - m) % MAX_IMAGES ≤ (c + MAX_IMAGES - j) % MAX_IMAGES) :
    get_latest_image_path c ex = imagePath m := by
  simp only [MAX_IMAGES] at hc2 hm2 hmin
  have hc0 : ¬ c = 0 := by omega
  by_cases hcx : ex c = true
  · have hmeq : m = c := by
      have h1 := hmin c (by omega) hc1 hcx
      omega
    subst hmeq
    simp [get_latest_image_path, hc0, hcx]
  · have hcx' : ex c = false := by
      revert hcx
      cases ex c <;> simp
    have hmc : ¬ m = c := by
      intro h
      rw [h, hcx'] at hex
      cases hex
    rcases Nat.lt_or_ge m c with hlt | hge
    · have hscan : scanBetween (c - 1) 0 ex = some m := by
        apply scanBetween_eq_some (c - 1) 0 m ex (by omega) (by omega) hex
        intro j hj1 hj2
        by_contra hj
        have hxj : ex j = true := by
          revert hj
          cases ex j <;> simp
        have := hmin j (by omega) (by omega) hxj
        omega
      simp [get_latest_image_path, hc0, hcx', hscan]
    · have hmgt : c < m := by omega
      have hscan1 : scanBetween (c - 1) 0 ex = none := by
        rw [scanBetween_eq_none]
        intro j hj1 hj2
        by_contra hj
        have hxj : ex j = true := by
          revert hj
          cases ex j <;> simp
        have := hmin j (by omega) (by omega) hxj
        omega
      have hscan2 : scanBetween 50 c ex = some m := by
        apply scanBetween_eq_some 50 c m ex (by omega) (by omega) hex
        intro j hj1 hj2
        by_contra hj
        have hxj : ex j = true := by
          revert hj
          cases ex j <;> simp
        have := hmin j (by omega) (by omega) hxj
        omega
      simp [get_latest_image_path, MAX_IMAGES, hc0, hcx', hscan1, hscan2]

/-- C1 witness: wrap-around recovery — cursor 1 with only slot 50 existing
resolves to slot 50's path. -/
theorem get_latest_closest_preceding_witness :
    get_latest_image_path 1 (fun j => j == 50) = imagePath 50 :=
  get_latest_closest_preceding 1 50 (fun j => j == 50) (by decide) (by decide)
    (by decide) (by decide) (by decide) (by decide)

/-- C4: with the cursor in `[0, 50]`, `get_latest_image_path` returns the
slot-less default shared path exactly when the cursor is `0` (no slot is
consulted then) or when the cursor is in `[1, 50]` but no slot in the
whole ring has an existing file. -/
theorem get_latest_default_iff (c : Nat) (ex : Nat → Bool) (hc : c ≤ MAX_IMAGES) :
    get_latest_image_path c ex = defaultImagePath ↔
      (c = 0 ∨ (1 ≤ c ∧ ∀ i, i < MAX_IMAGES + 1 → 1 ≤ i → ex i = false)) := by
  simp only [MAX_IMAGES] at hc ⊢
  by_cases hc0 : c = 0
  · subst hc0
    simp [get_latest_image_path]
  · by_cases hcx : ex c = true
    · have hne := imagePath_ne_default c (by simp only [MAX_IMAGES]; omega)
      simp only [get_latest_image_path, hc0, if_false, hcx, if_true]
      constructor
      · intro h
        exact absurd h hne
      · rintro (h | ⟨h1, h2⟩)
        · exact h.elim
        · have := h2 c (by omega) (by omega)
          rw [hcx] at this
          cases this
    · have hcx' : ex c = false := by
        revert hcx
        cases ex c <;> simp
      rcases hs1 : scanBetween (c - 1) 0 ex with _ | i
      · rcases hs2 : scanBetween MAX_IMAGES c ex with _ | i
        · have hall : ∀ i, i < 51 → 1 ≤ i → ex i = false := by
            intro i hi1 hi2
            rcases Nat.lt_trichotomy i c with h | h | h
            · exact (scanBetween_eq_none (c - 1) 0 ex).mp hs1 i (by omega) (by omega)
            · rw [h]
              exact hcx'
            · refine (scanBetween_eq_none MAX_IMAGES c ex).mp hs2 i (by omega) ?_
              simp only [MAX_IMAGES]
              omega
          simp only [get_latest_image_path, hc0, if_false, hcx', Bool.false_eq_true,
            if_false, hs1, hs2]
          constructor
          · intro _
            exact Or.inr ⟨by omega, hall⟩
          · intro _
            trivial
        · obtain ⟨ha, hb, hx⟩ := scanBetween_some_inv MAX_IMAGES c ex i hs2
          have hne := imagePath_ne_default i (by simp only [MAX_IMAGES] at hb ⊢; omega)
          simp only [get_latest_image_path, hc0, if_false, hcx', Bool.false_eq_true,
            if_false, hs1, hs2]
          constructor
          · intro h
            exact absurd h hne
          · rintro (h | ⟨h1, h2⟩)
            · exact h.elim
            · have hb' : i ≤ 50 := by simpa [MAX_IMAGES] using hb
              have := h2 i (by omega) (by omega)
              rw [hx] at this
              cases this
      · obtain ⟨ha, hb, hx⟩ := scanBetween_some_inv (c - 1) 0 ex i hs1
        have hne := imagePath_ne_default i (by simp only [MAX_IMAGES]; omega)
        simp only [get_latest_image_path, hc0, if_false, hcx', Bool.false_eq_true,
          if_false, hs1]
        constructor
        · intro h
          exact absurd h hne
        · rintro (h | ⟨h1, h2⟩)
          · exact h.elim
          · have := h2 i (by omega) (by omega)
            rw [hx] at this
            cases this

/-- C4 witness: cursor 0 resolves to the default path whatever exists. -/
theorem get_latest_default_iff_witness :
    get_latest_image_path 0 (fun _ => true) = defaultImagePath :=
  (get_latest_default_iff 0 (fun _ => true) (by decide)).mpr (Or.inl rfl)

end StartImageCycle

namespace StartImageCycle

/-- C7: a Generate phase whose renderer subprocess reports success
(raises nothing) but whose expected slot file is absent afterwards
returns failure, and in every run of `main` a failed Generate phase is
the last phase executed — the loop ends and no Display phase follows
it. -/
theorem generate_postcondition_failure_stops :
    (∀ c w, (generate_image c w false false).success = false) ∧
    (∀ fuel s e l₁ l₂, mainRun fuel s e = l₁ ++ Ev.gen false :: l₂ → l₂ = []) := by
  constructor
  · intro c w
    rfl
  · intro fuel s e l₁ l₂ h
    exact mainRun_gen_false_terminal fuel s e l₁ l₂ h

/-- C7 witness: on a fresh store with no files, the bootstrap Generate
phase fails (renderer "succeeds" but no file appears) and the trace stops
there, with nothing after the failed Generate event. -/
theorem generate_postcondition_failure_stops_witness :
    (generate_image 0 WriteOutcome.ok false false).success = false ∧
    mainRun 1 CounterFileState.absent emptyDiskEnv = [] ++ Ev.gen false :: [] ∧
    ([] : List Ev) = [] := by
  refine ⟨generate_postcondition_failure_stops.1 0 WriteOutcome.ok, by decide, ?_⟩
  exact generate_postcondition_failure_stops.2 1 CounterFileState.absent emptyDiskEnv
    [] [] (by decide)

/-- C8: `generate_image` computes and persists the new cursor value
(the `saveCounter` event) strictly before it invokes the renderer for that
slot (the `invokeRenderer` event), and when the save succeeded and the
renderer invocation then fails, the persisted cursor already equals the
slot that was just allocated — the advance is not rolled back. -/
theorem cursor_persisted_before_render (c : Nat) (w : WriteOutcome)
    (rendererRaises artifactExists : Bool) :
    (generate_image c w rendererRaises artifactExists).events =
      [GEvent.saveCounter (get_next_counter c), GEvent.invokeRenderer (get_next_counter c)] ∧
    (w = WriteOutcome.ok → rendererRaises = true →
      (generate_image c w rendererRaises artifactExists).success = false ∧
      (generate_image c w rendererRaises artifactExists).persisted = get_next_counter c) := by
  refine ⟨rfl, ?_⟩
  intro hw hr
  subst hw
  subst hr
  exact ⟨rfl, rfl⟩

/-- C8 witness: cursor 3, save succeeded, renderer raised — the persisted
cursor is already the allocated slot 4. -/
theorem cursor_persisted_before_render_witness :
    (generate_image 3 WriteOutcome.ok true false).success = false ∧
    (generate_image 3 WriteOutcome.ok true false).persisted = get_next_counter 3 :=
  (cursor_persisted_before_render 3 WriteOutcome.ok true false).2 rfl rfl

/-- C9: in a Display phase, if the path resolved by
`get_latest_image_path` does not exist the viewer is never invoked and
the phase fails; if it exists the viewer is invoked on exactly that path,
and a raising viewer also makes the phase fail; and in every run of
`main` a failed Display phase is the last phase executed (the loop ends
in both cases). -/
theorem display_failure_stops (c : Nat) (exP : String → Bool) (viewerRaises : Bool) :
    (exP (get_latest_image_path c (fun i => exP (imagePath i))) = false →
      (display_image c exP viewerRaises).viewerInvokedOn = none ∧
      (display_image c exP viewerRaises).success = false) ∧
    (exP (get_latest_image_path c (fun i => exP (imagePath i))) = true →
      (display_image c exP viewerRaises).viewerInvokedOn =
        some (get_latest_image_path c (fun i => exP (imagePath i))) ∧
      (viewerRaises = true → (display_image c exP viewerRaises).success = false)) ∧
    (∀ fuel s e l₁ l₂, mainRun fuel s e = l₁ ++ Ev.disp false :: l₂ → l₂ = []) := by
  refine ⟨?_, ?_, ?_⟩
  · intro h
    simp [display_image, h]
  · intro h
    constructor
    · simp [display_image, h]
    · intro hv
      subst hv
      simp [display_image, h]
  · intro fuel s e l₁ l₂ h
    exact mainRun_disp_false_terminal fuel s e l₁ l₂ h

/-- C9 witness: with no file anywhere the resolved path is missing, the
viewer is not invoked and the phase fails; and in a run whose first
Display phase fails, the trace ends right there. -/
theorem display_failure_stops_witness :
    (display_image 0 (fun _ => false) false).viewerInvokedOn = none ∧
    (display_image 0 (fun _ => false) false).success = false ∧
    mainRun 1 CounterFileState.absent noDisplayEnv = [Ev.gen true] ++ Ev.disp false :: [] ∧
    ([] : List Ev) = [] := by
  refine ⟨((display_failure_stops 0 (fun _ => false) false).1 rfl).1,
    ((display_failure_stops 0 (fun _ => false) false).1 rfl).2, by decide, ?_⟩
  exact (display_failure_stops 0 (fun _ => false) false).2.2 1 CounterFileState.absent
    noDisplayEnv [Ev.gen true] [] (by decide)

end StartImageCycle

namespace GeneratePicture

/-- C10: after every successful slot generation (cycle mode, prompts
loaded, renderer did not raise, artifact present) the generator copies
the freshly produced artifact `output<n>.png` to the shared `output.png`
in the same output directory and exits with code 0; if that copy fails it
only logs a warning — the exit code is still 0 and nothing is copied. -/
theorem shared_copy_after_success (dir manualName : String) (n : Nat) :
    (main dir (some (n + 1)) manualName true false true false).exitCode = 0 ∧
    (main dir (some (n + 1)) manualName true false true false).copied =
      some (dir ++ "/" ++ ("output" ++ toString (n + 1) ++ ".png"), dir ++ "/" ++ "output.png") ∧
    (main dir (some (n + 1)) manualName true false true false).warnLogged = false ∧
    (main dir (some (n + 1)) manualName true false true true).exitCode = 0 ∧
    (main dir (some (n + 1)) manualName true false true true).copied = none ∧
    (main dir (some (n + 1)) manualName true false true true).warnLogged = true := by
  simp [main]

end GeneratePicture
